import Mathlib

/-!
Verification of the RecruitPro request-admission pipeline core:
rate limiter (src/lib/rate-limit.ts), token service (src/lib/auth.ts),
validator (src/lib/validation.ts), error formatter (src/lib/errors.ts),
and the route handlers that orchestrate them.

Timestamps are modelled as natural numbers (milliseconds since epoch, the
value of `Date.now()`).  In the source, `windowStart = now - windowMs` may
be a negative JS number when `now < windowMs`; since every stored
`resetTime` is non-negative, the comparison `resetTime < windowStart` is
false in exactly the same cases as the truncated-subtraction comparison
used here, so `Nat` subtraction is a faithful embedding of that check.
-/

namespace RecruitPro

/-! ## Rate limiter (src/lib/rate-limit.ts) -/

/-- One entry of `RateLimiter.requests`: `{ count, resetTime }`. -/
structure CounterEntry where
  count : Nat
  resetTime : Nat
deriving Repr, DecidableEq

/-- The `requests` map, modelled extensionally: each key holds either an
entry or nothing (`Map.get` returning `undefined`). -/
def RLState : Type := String → Option CounterEntry

/-- `RateLimiter.cleanup(windowStart)`: delete every entry whose
`resetTime < windowStart`. -/
def cleanup (s : RLState) (windowStart : Nat) : RLState :=
  fun k =>
    match s k with
    | some d => if d.resetTime < windowStart then none else some d
    | none => none

/-- The value returned by `RateLimiter.check`. -/
structure RateLimitResult where
  success : Bool
  limit : Nat
  remaining : Nat
  reset : Nat
deriving Repr, DecidableEq

/-- `RateLimiter.check(identifier, limit, windowMs)` at time `now`,
returning the result together with the mutated `requests` map. -/
def check (s : RLState) (identifier : String) (limit windowMs now : Nat) :
    RateLimitResult × RLState :=
  let windowStart := now - windowMs
  let s1 := cleanup s windowStart
  let current0 := (s1 identifier).getD ⟨0, now + windowMs⟩
  let current1 :=
    if now > current0.resetTime then
      CounterEntry.mk 0 (now + windowMs)
    else current0
  let current2 := CounterEntry.mk (current1.count + 1) current1.resetTime
  let s2 : RLState := fun k => if k = identifier then some current2 else s1 k
  (⟨decide (current2.count ≤ limit), limit, limit - current2.count,
      current2.resetTime⟩, s2)

/-- Run `check` on a sequence of attempt times, collecting each result. -/
def checkSeq (s : RLState) (identifier : String) (limit windowMs : Nat) :
    List Nat → List RateLimitResult × RLState
  | [] => ([], s)
  | t :: ts =>
      let p := check s identifier limit windowMs t
      let q := checkSeq p.2 identifier limit windowMs ts
      (p.1 :: q.1, q.2)

/-- The empty counter table. -/
def emptyRL : RLState := fun _ => none

/-- The three policies of `RATE_LIMITS`. -/
def RATE_LIMITS_AUTH_limit : Nat := 5
def RATE_LIMITS_AUTH_windowMs : Nat := 15 * 60 * 1000
def RATE_LIMITS_API_limit : Nat := 100
def RATE_LIMITS_API_windowMs : Nat := 15 * 60 * 1000
def RATE_LIMITS_STRICT_limit : Nat := 3
def RATE_LIMITS_STRICT_windowMs : Nat := 5 * 60 * 1000

/-- One `check` on a key whose entry has not yet expired (`now ≤ resetTime`):
the entry survives cleanup, the window is not replaced, and the count is
incremented. -/
lemma check_step (s : RLState) (key : String) (limit windowMs now c rt : Nat)
    (hs : s key = some ⟨c, rt⟩) (hnow : now ≤ rt) :
    (check s key limit windowMs now).1 =
        ⟨decide (c + 1 ≤ limit), limit, limit - (c + 1), rt⟩ ∧
    (check s key limit windowMs now).2 key = some ⟨c + 1, rt⟩ := by
  have h1 : ¬ rt < now - windowMs := by omega
  have h2 : ¬ now > rt := by omega
  constructor <;> simp [check, cleanup, hs, h1, h2]

/-- One `check` on a key with no entry: a fresh window
`⟨1, now + windowMs⟩` is created. -/
lemma check_fresh (s : RLState) (key : String) (limit windowMs now : Nat)
    (hs : s key = none) :
    (check s key limit windowMs now).1 =
        ⟨decide (1 ≤ limit), limit, limit - 1, now + windowMs⟩ ∧
    (check s key limit windowMs now).2 key = some ⟨1, now + windowMs⟩ := by
  have h2 : ¬ now > now + windowMs := by omega
  constructor <;> simp [check, cleanup, hs, h2]

/-- Results of a run of attempts on a key currently at count `c` whose
window resets at `rt`, all attempts happening at times `≤ rt`. -/
lemma checkSeq_from (key : String) (limit windowMs rt : Nat) :
    ∀ (ts : List Nat) (s : RLState) (c : Nat), s key = some ⟨c, rt⟩ →
      (∀ t ∈ ts, t ≤ rt) →
      (checkSeq s key limit windowMs ts).1 =
        (List.range ts.length).map
          (fun i => ⟨decide (c + i + 1 ≤ limit), limit, limit - (c + i + 1), rt⟩) := by
  intro ts
  induction ts with
  | nil => intro s c hs hwin; simp [checkSeq]
  | cons t ts ih =>
    intro s c hs hwin
    have ht : t ≤ rt := hwin t (List.mem_cons_self t ts)
    have hstep := check_step s key limit windowMs t c rt hs ht
    have hrec := ih (check s key limit windowMs t).2 (c + 1) hstep.2
      (fun u hu => hwin u (List.mem_cons_of_mem t hu))
    simp only [checkSeq, List.length_cons, List.range_succ_eq_map, List.map_cons,
      List.map_map]
    rw [hstep.1, hrec]
    congr 1
    simp
    intro i _
    exact ⟨by omega, by omega⟩

/-- C2: for every `limit ≥ 1` and every key with no prior counter, a run of
attempts within one window (every attempt at a time `≤ t0 + windowMs`, where
`t0` is the time of the first attempt) is admitted for exactly the first
`limit` attempts and denied afterwards; after the `(i+1)`-th attempt,
`remaining = limit - (i+1)` (truncated at 0) and `reset = t0 + windowMs`. -/
theorem rateLimiter_window_admission (s0 : RLState) (key : String)
    (limit windowMs t0 : Nat) (ts : List Nat)
    (hfresh : s0 key = none) (hlim : 1 ≤ limit)
    (hwin : ∀ t ∈ ts, t ≤ t0 + windowMs) :
    (checkSeq s0 key limit windowMs (t0 :: ts)).1 =
      (List.range (ts.length + 1)).map
        (fun i => ⟨decide (i + 1 ≤ limit), limit, limit - (i + 1), t0 + windowMs⟩) := by
  have hstep := check_fresh s0 key limit windowMs t0 hfresh
  have hrec := checkSeq_from key limit windowMs (t0 + windowMs) ts
    (check s0 key limit windowMs t0).2 1 hstep.2 hwin
  simp only [checkSeq, List.range_succ_eq_map, List.map_cons, List.map_map]
  rw [hstep.1, hrec]
  congr 1
  simp
  intro i _
  exact ⟨by omega, by omega⟩

/-- Witness for C2, the spec's own scenario: policy `{limit:5,
windowMs:900000}` on key `login:203.0.113.7`, six attempts at `t0 = 0`:
five admissions with remaining 4,3,2,1,0 and then a denial with
remaining 0 and reset `t0 + 900000`. -/
theorem rateLimiter_window_admission_witness :
    (checkSeq emptyRL "login:203.0.113.7" 5 900000 [0, 0, 0, 0, 0, 0]).1 =
      [⟨true, 5, 4, 900000⟩, ⟨true, 5, 3, 900000⟩, ⟨true, 5, 2, 900000⟩,
       ⟨true, 5, 1, 900000⟩, ⟨true, 5, 0, 900000⟩, ⟨false, 5, 0, 900000⟩] := by
  have h := rateLimiter_window_admission emptyRL "login:203.0.113.7" 5 900000 0
    [0, 0, 0, 0, 0] rfl (by decide) (by decide)
  rw [h]
  decide

/-- Counterexample to C3 as stated: at the exact boundary instant
`now = windowResetAt` the code does NOT replace the window (the source
tests `now > current.resetTime`, strictly).  With an exhausted counter
`⟨5, 100⟩` under `limit = 5`, an attempt at `now = 100` is denied and the
count grows to 6 instead of being reset to 1. -/
theorem rateLimiter_boundary_counterexample :
    (check (fun k => if k = "k" then some ⟨5, 100⟩ else none) "k" 5 900000 100).1.success
        = false ∧
    (check (fun k => if k = "k" then some ⟨5, 100⟩ else none) "k" 5 900000 100).2 "k"
        = some ⟨6, 100⟩ := by
  exact ⟨rfl, rfl⟩

/-- C3 amended: the window is replaced (count restarted, new reset
`now + windowMs`) exactly when `now > windowResetAt`, strictly — either via
the reset branch or via cleanup having deleted the expired entry — and that
attempt is then admitted whenever `limit ≥ 1`; at `now ≤ windowResetAt` the
old window stays and the count is merely incremented. -/
theorem rateLimiter_window_reset (s : RLState) (key : String)
    (limit windowMs now c rt : Nat)
    (hs : s key = some ⟨c, rt⟩) (hlim : 1 ≤ limit) :
    (check s key limit windowMs now).2 key =
      some ⟨(if rt < now then 0 else c) + 1,
            if rt < now then now + windowMs else rt⟩ ∧
    (rt < now → (check s key limit windowMs now).1.success = true) := by
  by_cases h2 : rt < now
  · by_cases h1 : rt < now - windowMs
    · constructor
      · simp [check, cleanup, hs, h1, h2]
      · intro _
        simp [check, cleanup, hs, h1]
        omega
    · constructor
      · simp [check, cleanup, hs, h1, h2]
      · intro _
        simp [check, cleanup, hs, h1, h2]
        omega
  · have h1 : ¬ rt < now - windowMs := by omega
    have h3 : ¬ now > rt := by omega
    constructor
    · simp [check, cleanup, hs, h1, h2, h3]
    · intro h
      exact absurd h h2

/-- Witness for the amended C3: an exhausted counter `⟨7, 50⟩` under
`limit = 5`, attempted strictly after the reset time (`now = 51`): the
window is replaced with `⟨1, 1051⟩` and the attempt is admitted. -/
theorem rateLimiter_window_reset_witness :
    (check (fun k => if k = "k" then some ⟨7, 50⟩ else none) "k" 5 1000 51).2 "k"
        = some ⟨(if 50 < 51 then 0 else 7) + 1, if 50 < 51 then 51 + 1000 else 50⟩ ∧
    (50 < 51 →
      (check (fun k => if k = "k" then some ⟨7, 50⟩ else none) "k" 5 1000 51).1.success
        = true) := by
  exact rateLimiter_window_reset (fun k => if k = "k" then some ⟨7, 50⟩ else none)
    "k" 5 1000 51 7 50 (by decide) (by decide)

/-! ## Error taxonomy and formatter (src/lib/errors.ts) -/

/-- The `Record<string, string[]>` of field-path → violation messages. -/
abbrev FieldErrors := List (String × List String)

/-- The object literal returned by `formatErrorResponse`: `{ error, code,
details?, statusCode }`.  `code` is `Option` because `ApiError.code` may be
`undefined`. -/
structure ErrorEnvelope where
  error : String
  code : Option String
  details : Option FieldErrors
  statusCode : Nat
deriving Repr, DecidableEq

/-- The failure values reaching `formatErrorResponse(error: any)`, split the
way its `instanceof`/duck-typing dispatch splits them:
`validationError` for `ValidationError` instances, `apiError` for every
other `ApiError` subclass instance, and `external` for any non-`ApiError`
value — carrying exactly the duck-typed fields the formatter reads:
`name`, `message`, `stack`, the Mongoose per-field messages
(`error.errors[k].message`), the numeric driver `code`, and the keys of
`keyPattern`. -/
inductive Failure where
  | validationError (errors : FieldErrors)
  | apiError (message : String) (statusCode : Nat) (code : Option String)
  | external (name message stack : String)
      (fieldMessages : List (String × String)) (code : Option Nat)
      (keyPattern : List String)
deriving Repr, DecidableEq

/-- `new AuthenticationError(message)`: statusCode 401. -/
def AuthenticationError (message : String) : Failure :=
  .apiError message 401 (some "AUTHENTICATION_ERROR")

/-- `new AuthorizationError(message)`: statusCode 403. -/
def AuthorizationError (message : String) : Failure :=
  .apiError message 403 (some "AUTHORIZATION_ERROR")

/-- `new NotFoundError(message)`: statusCode 404. -/
def NotFoundError (message : String) : Failure :=
  .apiError message 404 (some "NOT_FOUND")

/-- `new ConflictError(message)`: statusCode 409. -/
def ConflictError (message : String) : Failure :=
  .apiError message 409 (some "CONFLICT")

/-- `new ValidationError(errors)`: statusCode 400, fixed message. -/
def mkValidationError (errors : FieldErrors) : Failure :=
  .validationError errors

/-- `formatErrorResponse` (src/lib/errors.ts, lines 51–100): checks, in
order, `instanceof ValidationError`, `instanceof ApiError`,
`error.name === 'ValidationError'` (Mongoose), `error.code === 11000`
(MongoDB duplicate key), and otherwise falls back to a generic 500. -/
def formatErrorResponse : Failure → ErrorEnvelope
  | .validationError errors =>
      ⟨"Validation failed", some "VALIDATION_ERROR", some errors, 400⟩
  | .apiError message statusCode code =>
      ⟨message, code, none, statusCode⟩
  | .external name _message _stack fieldMessages code keyPattern =>
      if name = "ValidationError" then
        ⟨"Validation failed", some "VALIDATION_ERROR",
          some (fieldMessages.map (fun kv => (kv.1, [kv.2]))), 400⟩
      else if code = some 11000 then
        ⟨(keyPattern.headD "undefined") ++ " already exists",
          some "DUPLICATE_ERROR", none, 409⟩
      else
        ⟨"Internal server error", some "INTERNAL_ERROR", none, 500⟩

/-- The spec's closed error taxonomy (§7). -/
inductive Kind where
  | VALIDATION
  | AUTHENTICATION
  | AUTHORIZATION
  | NOT_FOUND
  | CONFLICT
  | RATE_LIMITED
  | INTERNAL
deriving Repr, DecidableEq

/-- The taxonomy kind denoted by a wire status code (§7: 400 VALIDATION,
401 AUTHENTICATION, 403 AUTHORIZATION, 404 NOT_FOUND, 409 CONFLICT,
429 RATE_LIMITED, anything else INTERNAL). -/
def kindOfStatus : Nat → Kind
  | 400 => .VALIDATION
  | 401 => .AUTHENTICATION
  | 403 => .AUTHORIZATION
  | 404 => .NOT_FOUND
  | 409 => .CONFLICT
  | 429 => .RATE_LIMITED
  | _ => .INTERNAL

/-- The fixed generic 500 envelope of the fallback branch.  It is a closed
constant: no component of the formatted failure occurs in it. -/
def internalEnvelope : ErrorEnvelope :=
  ⟨"Internal server error", some "INTERNAL_ERROR", none, 500⟩

/-- C1: every failure that is not a `ValidationError`, not an `ApiError`
subclass, not a storage (Mongoose) validation error and not a storage
duplicate-key error is formatted as the fixed constant `internalEnvelope`
— kind INTERNAL, statusCode 500, generic message — so no field of the
returned envelope depends on (or contains) the failure's message, stack,
or any other detail. -/
theorem formatError_unrecognized_is_internal
    (name message stack : String) (fieldMessages : List (String × String))
    (code : Option Nat) (keyPattern : List String)
    (hname : name ≠ "ValidationError") (hcode : code ≠ some 11000) :
    formatErrorResponse (.external name message stack fieldMessages code keyPattern)
        = internalEnvelope ∧
    kindOfStatus (formatErrorResponse
        (.external name message stack fieldMessages code keyPattern)).statusCode
        = Kind.INTERNAL := by
  have h : formatErrorResponse
      (.external name message stack fieldMessages code keyPattern)
      = internalEnvelope := by
    simp [formatErrorResponse, hname, hcode, internalEnvelope]
  exact ⟨h, by rw [h]; rfl⟩

/-- Witness for C1: a crashed storage call
(`name = "MongoNetworkError"`, a detailed message and stack) formats to the
constant generic 500 envelope. -/
theorem formatError_unrecognized_is_internal_witness :
    formatErrorResponse (.external "MongoNetworkError"
        "connect ECONNREFUSED 10.0.0.5:27017" "at TCP.connect (net.js:42)"
        [] none []) = internalEnvelope ∧
    kindOfStatus (formatErrorResponse (.external "MongoNetworkError"
        "connect ECONNREFUSED 10.0.0.5:27017" "at TCP.connect (net.js:42)"
        [] none [])).statusCode = Kind.INTERNAL :=
  formatError_unrecognized_is_internal "MongoNetworkError"
    "connect ECONNREFUSED 10.0.0.5:27017" "at TCP.connect (net.js:42)"
    [] none [] (by decide) (by decide)

/-- C8: every duplicate-key failure surfaced by the MongoDB storage driver
(`name = "MongoServerError"`, `code = 11000`) formats to statusCode 409 —
taxonomy kind CONFLICT — never INTERNAL / 500. -/
theorem formatError_duplicate_is_conflict
    (message stack : String) (fieldMessages : List (String × String))
    (keyPattern : List String) :
    (formatErrorResponse (.external "MongoServerError" message stack
        fieldMessages (some 11000) keyPattern)).statusCode = 409 ∧
    kindOfStatus (formatErrorResponse (.external "MongoServerError" message
        stack fieldMessages (some 11000) keyPattern)).statusCode
        = Kind.CONFLICT ∧
    (formatErrorResponse (.external "MongoServerError" message stack
        fieldMessages (some 11000) keyPattern)).statusCode ≠ 500 ∧
    kindOfStatus (formatErrorResponse (.external "MongoServerError" message
        stack fieldMessages (some 11000) keyPattern)).statusCode
        ≠ Kind.INTERNAL := by
  have hname : ("MongoServerError" : String) ≠ "ValidationError" := by decide
  have h : (formatErrorResponse (.external "MongoServerError" message stack
      fieldMessages (some 11000) keyPattern)).statusCode = 409 := by
    simp [formatErrorResponse, hname]
  refine ⟨h, ?_, ?_, ?_⟩
  · rw [h]; rfl
  · rw [h]; decide
  · rw [h]; decide

/-! ## Token service (src/lib/auth.ts) -/

/-- The `TokenPayload` interface: `userId`, `email`, `role`. -/
structure TokenPayload where
  userId : String
  email : String
  role : String
deriving Repr, DecidableEq

/-- A signed credential as produced by `jwt.sign`: the claims, the
`iat`/`exp` timestamps it embeds, and the signature over all of them. -/
structure SignedToken where
  payload : TokenPayload
  iat : Nat
  expiry : Nat
  sig : String
deriving Repr, DecidableEq

/-- Modelled from the spec: the symmetric MAC of §4.2 ("signs it with a
secret key using a symmetric MAC scheme"), computed inside the external
`jsonwebtoken` collaborator.  Modelled as the transcript keyed by the
secret; the only property used below is that verification recomputes it
and compares. -/
def macSign (secret : String) (p : TokenPayload) (iat expiry : Nat) : String :=
  secret ++ "." ++ p.userId ++ "." ++ p.email ++ "." ++ p.role ++ "." ++
    toString iat ++ "." ++ toString expiry

/-- The two distinct exceptions `jwt.verify` can throw:
`JsonWebTokenError` (bad signature) and `TokenExpiredError`. -/
inductive JwtError where
  | invalidSignature
  | tokenExpired
deriving Repr, DecidableEq

/-- Modelled from the spec: the external `jsonwebtoken` collaborator's
`jwt.verify` — checks the signature against the secret, then checks
`expiry > now`, throwing (`Except.error`) a distinct error for each
failure and returning the decoded payload otherwise (§4.2). -/
def jwtVerify (secret : String) (now : Nat) (t : SignedToken) :
    Except JwtError TokenPayload :=
  if t.sig ≠ macSign secret t.payload t.iat t.expiry then
    .error .invalidSignature
  else if t.expiry ≤ now then
    .error .tokenExpired
  else
    .ok t.payload

/-- `JWT_EXPIRES_IN` defaults to `"7d"`: seven days, in milliseconds. -/
def tokenLifetimeMs : Nat := 7 * 24 * 60 * 60 * 1000

/-- `generateToken(payload)` issued at time `now`. -/
def generateToken (secret : String) (now : Nat) (p : TokenPayload) :
    SignedToken :=
  ⟨p, now, now + tokenLifetimeMs, macSign secret p now (now + tokenLifetimeMs)⟩

/-- `verifyToken(token)`:
`try { return jwt.verify(token, JWT_SECRET) } catch { return null }` —
every exception of the collaborator is collapsed to the sentinel `none`. -/
def verifyToken (secret : String) (now : Nat) (t : SignedToken) :
    Option TokenPayload :=
  match jwtVerify secret now t with
  | .ok p => some p
  | .error _ => none

/-- C4: `verifyToken` is total, returns the decoded payload exactly when
the signature verifies and the token is unexpired, and otherwise returns
the single sentinel `none`; in particular an expired-but-well-signed token
and a corrupted-signature token produce the identical outcome, even though
the collaborator distinguishes them by exception type. -/
theorem verifyToken_sentinel (secret : String) (now : Nat)
    (t t1 t2 : SignedToken)
    (h1sig : t1.sig = macSign secret t1.payload t1.iat t1.expiry)
    (h1exp : t1.expiry ≤ now)
    (h2sig : t2.sig ≠ macSign secret t2.payload t2.iat t2.expiry) :
    verifyToken secret now t =
      (if t.sig = macSign secret t.payload t.iat t.expiry ∧ now < t.expiry
       then some t.payload else none) ∧
    verifyToken secret now t1 = none ∧
    verifyToken secret now t2 = none ∧
    verifyToken secret now t1 = verifyToken secret now t2 := by
  have hchar : ∀ u : SignedToken, verifyToken secret now u =
      (if u.sig = macSign secret u.payload u.iat u.expiry ∧ now < u.expiry
       then some u.payload else none) := by
    intro u
    by_cases hs : u.sig = macSign secret u.payload u.iat u.expiry
    · by_cases he : u.expiry ≤ now
      · have hne : ¬ now < u.expiry := by omega
        simp [verifyToken, jwtVerify, hs, he, hne]
      · have hlt : now < u.expiry := by omega
        simp [verifyToken, jwtVerify, hs, he, hlt]
    · simp [verifyToken, jwtVerify, hs]
  have hn1 : verifyToken secret now t1 = none := by
    rw [hchar t1]
    have : ¬ now < t1.expiry := by omega
    simp [this]
  have hn2 : verifyToken secret now t2 = none := by
    rw [hchar t2]
    simp [h2sig]
  exact ⟨hchar t, hn1, hn2, by rw [hn1, hn2]⟩

/-- Witness for C4: an expired but well-signed token and an unexpired
token with a corrupted signature, verified at the same instant, both
yield `none`. -/
theorem verifyToken_sentinel_witness :
    verifyToken "s" tokenLifetimeMs
        (generateToken "s" 0 ⟨"u1", "a@b.co", "candidate"⟩) =
      (if (generateToken "s" 0 ⟨"u1", "a@b.co", "candidate"⟩).sig =
            macSign "s" (generateToken "s" 0 ⟨"u1", "a@b.co", "candidate"⟩).payload
              (generateToken "s" 0 ⟨"u1", "a@b.co", "candidate"⟩).iat
              (generateToken "s" 0 ⟨"u1", "a@b.co", "candidate"⟩).expiry ∧
          tokenLifetimeMs < (generateToken "s" 0 ⟨"u1", "a@b.co", "candidate"⟩).expiry
       then some (generateToken "s" 0 ⟨"u1", "a@b.co", "candidate"⟩).payload
       else none) ∧
    verifyToken "s" tokenLifetimeMs
        (generateToken "s" 0 ⟨"u1", "a@b.co", "candidate"⟩) = none ∧
    verifyToken "s" tokenLifetimeMs
        ⟨⟨"u1", "a@b.co", "candidate"⟩, 0, 2 * tokenLifetimeMs, "corrupt"⟩ = none ∧
    verifyToken "s" tokenLifetimeMs
        (generateToken "s" 0 ⟨"u1", "a@b.co", "candidate"⟩) =
      verifyToken "s" tokenLifetimeMs
        ⟨⟨"u1", "a@b.co", "candidate"⟩, 0, 2 * tokenLifetimeMs, "corrupt"⟩ :=
  verifyToken_sentinel "s" tokenLifetimeMs
    (generateToken "s" 0 ⟨"u1", "a@b.co", "candidate"⟩)
    (generateToken "s" 0 ⟨"u1", "a@b.co", "candidate"⟩)
    ⟨⟨"u1", "a@b.co", "candidate"⟩, 0, 2 * tokenLifetimeMs, "corrupt"⟩
    rfl (by decide) (by decide)

/-- C9: verifying a token produced by `generateToken`, before its expiry
and with the same secret, recovers exactly the original claims. -/
theorem verify_generate_roundtrip (secret : String) (tIssue tVerify : Nat)
    (p : TokenPayload) (h : tVerify < tIssue + tokenLifetimeMs) :
    verifyToken secret tVerify (generateToken secret tIssue p) = some p := by
  have h2 : ¬ (tIssue + tokenLifetimeMs ≤ tVerify) := by omega
  simp [verifyToken, jwtVerify, generateToken, h2]

/-- Witness for C9: a concrete payload issued at `t = 0` and verified at
`t = 1000` round-trips. -/
theorem verify_generate_roundtrip_witness :
    verifyToken "secret-key" 1000
        (generateToken "secret-key" 0 ⟨"64aa", "x@y.io", "recruiter"⟩) =
      some ⟨"64aa", "x@y.io", "recruiter"⟩ :=
  verify_generate_roundtrip "secret-key" 0 1000 ⟨"64aa", "x@y.io", "recruiter"⟩
    (by decide)

/-! ## Validator (src/lib/validation.ts)

The schemas are zod rule chains.  Zod's object parser checks every field
of the shape, and within one string chain runs every check, accumulating
all issues; the route handlers then group the issues by dot-joined path
(`errors[path].push(error.message)`).  Absent fields produce the single
zod issue `Required` and the chain's checks are skipped.  A `.trim()` at
the end of a chain transforms the output value after the preceding checks
ran on the raw value. -/

/-- `noDoubleDot l` is false iff `l` contains two consecutive dots. -/
def noDoubleDot : List Char → Bool
  | '.' :: '.' :: _ => false
  | _ :: cs => noDoubleDot cs
  | [] => true

/-- Characters admitted in the local part of an email address. -/
def isLocalChar (c : Char) : Bool :=
  c.isAlphanum || c = '_' || c = '+' || c = '-' || c = '.'

/-- Characters admitted after the first character of a domain label. -/
def isLabelChar (c : Char) : Bool :=
  c.isAlphanum || c = '-'

/-- Split a character list at every occurrence of `sep` (the semantics of
`String.split` / JS `String.prototype.split` on a single character). -/
def splitChar (sep : Char) : List Char → List (List Char)
  | [] => [[]]
  | c :: cs =>
      let r := splitChar sep cs
      if c = sep then [] :: r
      else
        match r with
        | g :: gs => (c :: g) :: gs
        | [] => [[c]]

/-- A domain label: nonempty, starts alphanumeric, continues with
alphanumeric or hyphen. -/
def labelOk (l : List Char) : Bool :=
  match l with
  | [] => false
  | c :: cs => c.isAlphanum && cs.all isLabelChar

/-- A top-level domain label: alphabetic, length ≥ 2. -/
def tldOk (l : List Char) : Bool :=
  decide (2 ≤ l.length) && l.all Char.isAlpha

/-- The local part: nonempty, of local characters only, no leading or
trailing dot, no consecutive dots. -/
def localOk (l : List Char) : Bool :=
  !l.isEmpty && l.all isLocalChar && noDoubleDot l &&
    (l.head? != some '.') && (l.getLast? != some '.')

/-- The domain: at least two dot-separated labels, the last one a TLD. -/
def domainOk (l : List Char) : Bool :=
  match (splitChar '.' l).reverse with
  | [] => false
  | [_] => false
  | tld :: rest => tldOk tld && rest.all labelOk

/-- Modelled from the spec: the conservative email pattern applied by the
external validation library (`z.string().email()`); §4.3 — "email must
match a conservative pattern".  A single `@` separating a well-formed
local part from a well-formed multi-label domain; in particular no
whitespace anywhere. -/
def emailOk (s : String) : Bool :=
  match splitChar '@' s.toList with
  | [localPart, domain] => localOk localPart && domainOk domain
  | _ => false

/-- JS `String.prototype.trim` (the transform of zod's `.trim()`): strip
leading and trailing whitespace. -/
def strTrim (s : String) : String :=
  ⟨((s.toList.dropWhile Char.isWhitespace).reverse.dropWhile
      Char.isWhitespace).reverse⟩

/-- The password pattern of `registerSchema`
(`/^(?=.*[a-z])(?=.*[A-Z])(?=.*\d)/`): at least one lowercase letter, one
uppercase letter, and one digit. -/
def passwordPatternOk (s : String) : Bool :=
  s.toList.any Char.isLower && s.toList.any Char.isUpper &&
    s.toList.any Char.isDigit

/-- The raw registration body: each field either absent or a string. -/
structure RawRegisterInput where
  email : Option String
  password : Option String
  firstName : Option String
  lastName : Option String
  role : Option String
deriving Repr, DecidableEq

/-- The normalized value produced on success. -/
structure RegisterData where
  email : String
  password : String
  firstName : String
  lastName : String
  role : String
deriving Repr, DecidableEq

/-- `email: z.string().email('Invalid email format').min(1, 'Email is
required')` — both checks run and accumulate. -/
def checkEmailField : Option String → List String
  | none => ["Required"]
  | some s =>
      (if emailOk s then [] else ["Invalid email format"]) ++
      (if 1 ≤ s.length then [] else ["Email is required"])

/-- `password: z.string().min(8, ...).regex(..., ...)` — both checks run
and accumulate. -/
def checkPasswordField : Option String → List String
  | none => ["Required"]
  | some s =>
      (if 8 ≤ s.length then [] else
        ["Password must be at least 8 characters long"]) ++
      (if passwordPatternOk s then [] else
        ["Password must contain at least one uppercase letter, one lowercase letter, and one number"])

/-- A name field: `z.string().min(1, requiredMsg).max(50, tooLongMsg).trim()`. -/
def checkNameField (requiredMsg tooLongMsg : String) :
    Option String → List String
  | none => ["Required"]
  | some s =>
      (if 1 ≤ s.length then [] else [requiredMsg]) ++
      (if s.length ≤ 50 then [] else [tooLongMsg])

/-- `role: z.enum(['candidate','recruiter']).default('candidate')`:
absent is fine (the default applies), a present value must be a member. -/
def checkRoleField : Option String → List String
  | none => []
  | some s =>
      if s = "candidate" || s = "recruiter" then [] else
        ["Invalid enum value"]

/-- Group a field's messages under its path, contributing nothing when the
field has no violation. -/
def fieldGroup (path : String) (ms : List String) : FieldErrors :=
  match ms with
  | [] => []
  | ms => [(path, ms)]

/-- The grouped field errors of `registerSchema.safeParse` on a raw body,
in shape order: every field is checked, each accumulating all of its own
messages. -/
def registerErrors (raw : RawRegisterInput) : FieldErrors :=
  fieldGroup "email" (checkEmailField raw.email) ++
    (fieldGroup "password" (checkPasswordField raw.password) ++
      (fieldGroup "firstName" (checkNameField "First name is required"
          "First name cannot exceed 50 characters" raw.firstName) ++
        (fieldGroup "lastName" (checkNameField "Last name is required"
            "Last name cannot exceed 50 characters" raw.lastName) ++
          fieldGroup "role" (checkRoleField raw.role))))

/-- `registerSchema.safeParse` followed by the route's grouping of issues
by path; on success the value carries firstName/lastName trimmed and the
role defaulted. -/
def validateRegister (raw : RawRegisterInput) :
    FieldErrors × Option RegisterData :=
  if (registerErrors raw).isEmpty then
    match raw.email, raw.password, raw.firstName, raw.lastName with
    | some e, some pw, some f, some l =>
        (registerErrors raw,
          some ⟨e, pw, strTrim f, strTrim l, raw.role.getD "candidate"⟩)
    | _, _, _, _ => (registerErrors raw, none)
  else
    (registerErrors raw, none)

lemma validateRegister_fst (raw : RawRegisterInput) :
    (validateRegister raw).1 = registerErrors raw := by
  unfold validateRegister
  split
  · split <;> rfl
  · rfl

lemma lookup_fieldGroup (k path : String) (ms : List String) :
    (fieldGroup path ms).lookup k =
      if k = path ∧ ms ≠ [] then some ms else none := by
  cases ms with
  | nil => simp [fieldGroup, List.lookup]
  | cons m ms =>
    by_cases h : k = path
    · simp [fieldGroup, List.lookup, h]
    · have hb : (k == path) = false := by simp [h]
      simp [fieldGroup, List.lookup, hb, h]

lemma lookup_group_skip (k path : String) (ms : List String)
    (rest : FieldErrors) (h : k ≠ path) :
    (fieldGroup path ms ++ rest).lookup k = rest.lookup k := by
  have hb : (k == path) = false := by simp [h]
  cases ms with
  | nil => simp [fieldGroup]
  | cons m ms => simp [fieldGroup, List.lookup, hb]

lemma lookup_group_here (k : String) (ms : List String) (rest : FieldErrors) :
    (fieldGroup k ms ++ rest).lookup k =
      if ms = [] then rest.lookup k else some ms := by
  cases ms with
  | nil => simp [fieldGroup]
  | cons m ms => simp [fieldGroup, List.lookup]

lemma registerErrors_lookup_email (raw : RawRegisterInput) :
    (registerErrors raw).lookup "email" =
      if checkEmailField raw.email = [] then none
      else some (checkEmailField raw.email) := by
  unfold registerErrors
  rw [lookup_group_here]
  by_cases hx : checkEmailField raw.email = []
  · have hr : ¬ (("email" : String) = "role") := by decide
    rw [if_pos hx, lookup_group_skip _ _ _ _ (by decide),
      lookup_group_skip _ _ _ _ (by decide),
      lookup_group_skip _ _ _ _ (by decide), lookup_fieldGroup]
    simp [hx, hr]
  · rw [if_neg hx, if_neg hx]

lemma registerErrors_lookup_password (raw : RawRegisterInput) :
    (registerErrors raw).lookup "password" =
      if checkPasswordField raw.password = [] then none
      else some (checkPasswordField raw.password) := by
  unfold registerErrors
  rw [lookup_group_skip _ _ _ _ (by decide), lookup_group_here]
  by_cases hx : checkPasswordField raw.password = []
  · have hr : ¬ (("password" : String) = "role") := by decide
    rw [if_pos hx, lookup_group_skip _ _ _ _ (by decide),
      lookup_group_skip _ _ _ _ (by decide), lookup_fieldGroup]
    simp [hx, hr]
  · rw [if_neg hx, if_neg hx]

lemma registerErrors_lookup_firstName (raw : RawRegisterInput) :
    (registerErrors raw).lookup "firstName" =
      if checkNameField "First name is required"
          "First name cannot exceed 50 characters" raw.firstName = [] then none
      else some (checkNameField "First name is required"
          "First name cannot exceed 50 characters" raw.firstName) := by
  unfold registerErrors
  rw [lookup_group_skip _ _ _ _ (by decide),
    lookup_group_skip _ _ _ _ (by decide), lookup_group_here]
  by_cases hx : checkNameField "First name is required"
      "First name cannot exceed 50 characters" raw.firstName = []
  · have hr : ¬ (("firstName" : String) = "role") := by decide
    rw [if_pos hx, lookup_group_skip _ _ _ _ (by decide), lookup_fieldGroup]
    simp [hx, hr]
  · rw [if_neg hx, if_neg hx]

lemma registerErrors_lookup_lastName (raw : RawRegisterInput) :
    (registerErrors raw).lookup "lastName" =
      if checkNameField "Last name is required"
          "Last name cannot exceed 50 characters" raw.lastName = [] then none
      else some (checkNameField "Last name is required"
          "Last name cannot exceed 50 characters" raw.lastName) := by
  unfold registerErrors
  rw [lookup_group_skip _ _ _ _ (by decide),
    lookup_group_skip _ _ _ _ (by decide),
    lookup_group_skip _ _ _ _ (by decide), lookup_group_here]
  by_cases hx : checkNameField "Last name is required"
      "Last name cannot exceed 50 characters" raw.lastName = []
  · have hr : ¬ (("lastName" : String) = "role") := by decide
    rw [if_pos hx, lookup_fieldGroup]
    simp [hx, hr]
  · rw [if_neg hx, if_neg hx]

/-- C6: on a raw input whose password violates both the minimum-length
rule and the character-class rule, validation accumulates both messages
under `password`; and every other field's entry is still its own full
check result, independent of the password failure — validation does not
stop at the first violating field. -/
theorem validateRegister_accumulates (raw : RawRegisterInput) (p : String)
    (hp : raw.password = some p) (hlen : p.length < 8)
    (hpat : passwordPatternOk p = false) :
    (validateRegister raw).1.lookup "password" =
      some ["Password must be at least 8 characters long",
        "Password must contain at least one uppercase letter, one lowercase letter, and one number"] ∧
    (validateRegister raw).1.lookup "email" =
      (if checkEmailField raw.email = [] then none
       else some (checkEmailField raw.email)) ∧
    (validateRegister raw).1.lookup "firstName" =
      (if checkNameField "First name is required"
          "First name cannot exceed 50 characters" raw.firstName = [] then none
       else some (checkNameField "First name is required"
          "First name cannot exceed 50 characters" raw.firstName)) ∧
    (validateRegister raw).1.lookup "lastName" =
      (if checkNameField "Last name is required"
          "Last name cannot exceed 50 characters" raw.lastName = [] then none
       else some (checkNameField "Last name is required"
          "Last name cannot exceed 50 characters" raw.lastName)) := by
  have hpw : checkPasswordField raw.password =
      ["Password must be at least 8 characters long",
       "Password must contain at least one uppercase letter, one lowercase letter, and one number"] := by
    rw [hp]
    have h8 : ¬ (8 ≤ p.length) := by omega
    simp [checkPasswordField, h8, hpat]
  refine ⟨?_, ?_, ?_, ?_⟩ <;> rw [validateRegister_fst]
  · rw [registerErrors_lookup_password, hpw]
    simp
  · exact registerErrors_lookup_email raw
  · exact registerErrors_lookup_firstName raw
  · exact registerErrors_lookup_lastName raw

/-- Witness for C6, the spec's scenario input
`{email:"not-an-email", password:"abc", firstName:"", lastName:"D"}`:
`password` carries both the length and the character-class message, and
`email` and `firstName` are still reported. -/
theorem validateRegister_accumulates_witness :
    (validateRegister ⟨some "not-an-email", some "abc", some "", some "D",
        none⟩).1.lookup "password" =
      some ["Password must be at least 8 characters long",
        "Password must contain at least one uppercase letter, one lowercase letter, and one number"] ∧
    (validateRegister ⟨some "not-an-email", some "abc", some "", some "D",
        none⟩).1.lookup "email" = some ["Invalid email format"] ∧
    (validateRegister ⟨some "not-an-email", some "abc", some "", some "D",
        none⟩).1.lookup "firstName" = some ["First name is required"] ∧
    (validateRegister ⟨some "not-an-email", some "abc", some "", some "D",
        none⟩).1.lookup "lastName" = none := by
  have h := validateRegister_accumulates
    ⟨some "not-an-email", some "abc", some "", some "D", none⟩ "abc"
    rfl (by decide) (by decide)
  refine ⟨h.1, ?_, ?_, ?_⟩
  · rw [h.2.1]; decide
  · rw [h.2.2.1]; decide
  · rw [h.2.2.2]; decide

/-- Counterexample to C7 as stated: the validator applies no trimming or
lower-casing to the email — `"  USER@Example.com "` does not validate
successfully; it is rejected with `Invalid email format` and no normalized
value is produced. -/
theorem validateRegister_email_counterexample :
    (validateRegister ⟨some "  USER@Example.com ", some "Passw0rd",
        some "Ann", some "Lee", none⟩).2 = none ∧
    (validateRegister ⟨some "  USER@Example.com ", some "Passw0rd",
        some "Ann", some "Lee", none⟩).1.lookup "email" =
      some ["Invalid email format"] := by
  exact ⟨by decide, by decide⟩

/-- C7 amended: a fully conformant input yields an empty error mapping and
the coerced value — firstName/lastName trimmed, role defaulted — but the
email is passed through by the validator unchanged (the lower-casing and
trimming of email happen only in the storage model, not in the
validator). -/
theorem validateRegister_success (e pw f l : String) (r : Option String)
    (he : emailOk e = true) (hel : 1 ≤ e.length)
    (hpw8 : 8 ≤ pw.length) (hpwp : passwordPatternOk pw = true)
    (hf1 : 1 ≤ f.length) (hf50 : f.length ≤ 50)
    (hl1 : 1 ≤ l.length) (hl50 : l.length ≤ 50)
    (hr : r = none ∨ r = some "candidate" ∨ r = some "recruiter") :
    validateRegister ⟨some e, some pw, some f, some l, r⟩ =
      ([], some ⟨e, pw, strTrim f, strTrim l, r.getD "candidate"⟩) := by
  have hce : checkEmailField (some e) = [] := by
    simp [checkEmailField, he, hel]
  have hcp : checkPasswordField (some pw) = [] := by
    simp [checkPasswordField, hpw8, hpwp]
  have hcf : checkNameField "First name is required"
      "First name cannot exceed 50 characters" (some f) = [] := by
    simp [checkNameField, hf1, hf50]
  have hcl : checkNameField "Last name is required"
      "Last name cannot exceed 50 characters" (some l) = [] := by
    simp [checkNameField, hl1, hl50]
  have hcr : checkRoleField r = [] := by
    rcases hr with h | h | h <;> simp [checkRoleField, h]
  have hre : registerErrors ⟨some e, some pw, some f, some l, r⟩ = [] := by
    simp [registerErrors, hce, hcp, hcf, hcl, hcr, fieldGroup]
  simp [validateRegister, hre]

/-- Witness for the amended C7: a conformant input with surrounding
whitespace in `firstName`: empty error mapping, names trimmed, role
defaulted, email unchanged. -/
theorem validateRegister_success_witness :
    validateRegister ⟨some "user@example.com", some "Passw0rd1",
        some " Ann ", some "Lee", none⟩ =
      ([], some ⟨"user@example.com", "Passw0rd1", "Ann", "Lee",
        "candidate"⟩) := by
  have h := validateRegister_success "user@example.com" "Passw0rd1"
    " Ann " "Lee" none (by decide) (by decide) (by decide) (by decide)
    (by decide) (by decide) (by decide) (by decide) (Or.inl rfl)
  rw [h]
  decide

/-! ## User model (src/lib/models/User.ts) and collaborators -/

/-- Modelled from the spec: the one-way credential hashing collaborator
(§6, bcrypt).  `hash` is modelled as a tagged transcript; `compare`
recomputes and compares, as `comparePassword` does. -/
def bcryptHash (plain : String) : String :=
  "bcrypt$" ++ plain

/-- `comparePassword(candidate)`: `bcrypt.compare(candidate, this.password)`. -/
def bcryptCompare (plain stored : String) : Bool :=
  bcryptHash plain == stored

/-- A stored user document (the fields the routes read). -/
structure UserRecord where
  id : String
  email : String
  password : String
  firstName : String
  lastName : String
  role : String
deriving Repr, DecidableEq

/-- The serialized document handed to `toJSON.transform` — every stored
field, the password hash included. -/
def userRawJSON (u : UserRecord) : List (String × String) :=
  [("_id", u.id), ("email", u.email), ("password", u.password),
   ("firstName", u.firstName), ("lastName", u.lastName), ("role", u.role)]

/-- `UserSchema`'s `toJSON` transform: `delete ret.password`. -/
def userToJSON (u : UserRecord) : List (String × String) :=
  (userRawJSON u).filter (fun kv => kv.1 != "password")

/-! ## Route handlers

`registerPOST` (src/app/api/auth/register/route.ts), `loginPOST` and the
profile `GET`/`PUT` (src/unnamed/part_002), each instrumented with the
ordered list of pipeline states it passes through.  The storage
collaborator is the list `db` of stored documents; `newId` stands for the
storage-assigned id of a created document. -/

/-- The pipeline states of spec §4.5. -/
inductive Stage where
  | rateCheck
  | parseValidate
  | authenticate
  | execute
  | format
deriving Repr, DecidableEq

/-- The success body `{ message, user, token }` of register/login. -/
structure AuthSuccessBody where
  message : String
  user : List (String × String)
  token : SignedToken
deriving Repr, DecidableEq

/-- A route response: success with a body, failure with a formatted
envelope, or the direct 429 rate-limit response. -/
inductive ApiResponse where
  | ok (status : Nat) (body : AuthSuccessBody)
  | okProfile (status : Nat) (message : String) (user : List (String × String))
  | fail (env : ErrorEnvelope)
  | rateLimited (reset : Nat)
deriving Repr, DecidableEq

/-- The login body and its schema (`loginSchema`): email as in
registration, password only `min(1, 'Password is required')`. -/
structure RawLoginInput where
  email : Option String
  password : Option String
deriving Repr, DecidableEq

/-- `password: z.string().min(1, 'Password is required')`. -/
def checkLoginPassword : Option String → List String
  | none => ["Required"]
  | some s => if 1 ≤ s.length then [] else ["Password is required"]

/-- Grouped field errors of `loginSchema.safeParse`. -/
def loginErrors (raw : RawLoginInput) : FieldErrors :=
  fieldGroup "email" (checkEmailField raw.email) ++
    fieldGroup "password" (checkLoginPassword raw.password)

/-- `loginSchema.safeParse` with the route's grouping by path. -/
def validateLogin (raw : RawLoginInput) :
    FieldErrors × Option (String × String) :=
  if (loginErrors raw).isEmpty then
    match raw.email, raw.password with
    | some e, some p => (loginErrors raw, some (e, p))
    | _, _ => (loginErrors raw, none)
  else
    (loginErrors raw, none)

/-- Characters matched by `[\d\s-()]` in `updateProfileSchema`'s phone
pattern. -/
def isPhoneChar (c : Char) : Bool :=
  c.isDigit || c.isWhitespace || c = '-' || c = '(' || c = ')'

/-- `/^\+?[\d\s-()]+$/`: an optional leading `+`, then at least one
digit/whitespace/dash/parenthesis. -/
def phonePatternOk (s : String) : Bool :=
  let l :=
    match s.toList with
    | '+' :: rest => rest
    | l => l
  !l.isEmpty && l.all isPhoneChar

/-- The profile-update body: every field optional. -/
structure RawUpdateProfileInput where
  firstName : Option String
  lastName : Option String
  phone : Option String
  bio : Option String
  skills : Option (List String)
  experience : Option String
deriving Repr, DecidableEq

/-- An optional `z.string().min(lo).max(hi)`: absent is fine, a present
value accumulates both bound violations. -/
def checkOptMinMax (lo hi : Nat) (loMsg hiMsg : String) :
    Option String → List String
  | none => []
  | some s =>
      (if lo ≤ s.length then [] else [loMsg]) ++
      (if s.length ≤ hi then [] else [hiMsg])

/-- `phone: z.string().regex(..., 'Invalid phone number').optional()`. -/
def checkOptPhone : Option String → List String
  | none => []
  | some s => if phonePatternOk s then [] else ["Invalid phone number"]

/-- An optional `z.string().max(hi)`. -/
def checkOptMax (hi : Nat) (hiMsg : String) : Option String → List String
  | none => []
  | some s => if s.length ≤ hi then [] else [hiMsg]

/-- Grouped field errors of `updateProfileSchema.safeParse`: only supplied
fields are checked. -/
def updateProfileErrors (raw : RawUpdateProfileInput) : FieldErrors :=
  fieldGroup "firstName" (checkOptMinMax 1 50
      "String must contain at least 1 character(s)"
      "String must contain at most 50 character(s)" raw.firstName) ++
    (fieldGroup "lastName" (checkOptMinMax 1 50
        "String must contain at least 1 character(s)"
        "String must contain at most 50 character(s)" raw.lastName) ++
      (fieldGroup "phone" (checkOptPhone raw.phone) ++
        (fieldGroup "bio" (checkOptMax 500
            "String must contain at most 500 character(s)" raw.bio) ++
          fieldGroup "experience" (checkOptMax 2000
            "String must contain at most 2000 character(s)" raw.experience))))

/-- The validated update patch; `skills` entries trimmed
(`z.array(z.string().trim())`). -/
structure UpdateProfileData where
  firstName : Option String
  lastName : Option String
  phone : Option String
  bio : Option String
  skills : Option (List String)
  experience : Option String
deriving Repr, DecidableEq

/-- `updateProfileSchema.safeParse` with the route's grouping by path. -/
def validateUpdateProfile (raw : RawUpdateProfileInput) :
    FieldErrors × Option UpdateProfileData :=
  if (updateProfileErrors raw).isEmpty then
    (updateProfileErrors raw,
      some ⟨raw.firstName, raw.lastName, raw.phone, raw.bio,
        raw.skills.map (fun l => l.map strTrim), raw.experience⟩)
  else
    (updateProfileErrors raw, none)

/-- The credential-bearing parts of a profile request. -/
structure ProfileRequest where
  authHeaderToken : Option SignedToken
  cookieToken : Option SignedToken
deriving Repr, DecidableEq

/-- `extractTokenFromRequest`: prefer the `Authorization: Bearer` header,
fall back to the `token` cookie. -/
def extractTokenFromRequest (r : ProfileRequest) : Option SignedToken :=
  match r.authHeaderToken with
  | some t => some t
  | none => r.cookieToken

/-- `authenticateRequest`: extract, then verify; `none` when absent or
invalid. -/
def authenticateRequest (secret : String) (now : Nat) (r : ProfileRequest) :
    Option TokenPayload :=
  match extractTokenFromRequest r with
  | none => none
  | some t => verifyToken secret now t

/-- The registration handler: rate check on `register:<ip>` under the
AUTH policy, then parse/validate, then the storage steps (duplicate
pre-check, create), each failure formatted by the catch. -/
def registerPOST (now : Nat) (secret : String) (rl : RLState)
    (db : List UserRecord) (ip : Option String) (newId : String)
    (body : RawRegisterInput) : ApiResponse × List Stage :=
  let r := (check rl ("register:" ++ ip.getD "anonymous")
    RATE_LIMITS_AUTH_limit RATE_LIMITS_AUTH_windowMs now).1
  if !r.success then
    (.rateLimited r.reset, [.rateCheck, .format])
  else
    match validateRegister body with
    | (es, none) =>
        (.fail (formatErrorResponse (mkValidationError es)),
          [.rateCheck, .parseValidate, .format])
    | (_, some data) =>
        if db.any (fun u => u.email == data.email) then
          (.fail (formatErrorResponse
              (ConflictError "User with this email already exists")),
            [.rateCheck, .parseValidate, .execute, .format])
        else
          (.ok 201 ⟨"Registration successful",
              userToJSON ⟨newId, data.email, bcryptHash data.password,
                data.firstName, data.lastName, data.role⟩,
              generateToken secret now ⟨newId, data.email, data.role⟩⟩,
            [.rateCheck, .parseValidate, .execute, .format])

/-- The login handler: rate check on `login:<ip>` under the AUTH policy,
then parse/validate, then lookup (with password selected) and password
comparison, then the success envelope embedding `user.toJSON()`. -/
def loginPOST (now : Nat) (secret : String) (rl : RLState)
    (db : List UserRecord) (ip : Option String) (body : RawLoginInput) :
    ApiResponse × List Stage :=
  let r := (check rl ("login:" ++ ip.getD "anonymous")
    RATE_LIMITS_AUTH_limit RATE_LIMITS_AUTH_windowMs now).1
  if !r.success then
    (.rateLimited r.reset, [.rateCheck, .format])
  else
    match validateLogin body with
    | (es, none) =>
        (.fail (formatErrorResponse (mkValidationError es)),
          [.rateCheck, .parseValidate, .format])
    | (_, some ep) =>
        match db.find? (fun u => u.email == ep.1) with
        | none =>
            (.fail (formatErrorResponse
                (AuthenticationError "Invalid email or password")),
              [.rateCheck, .parseValidate, .execute, .format])
        | some user =>
            if !bcryptCompare ep.2 user.password then
              (.fail (formatErrorResponse
                  (AuthenticationError "Invalid email or password")),
                [.rateCheck, .parseValidate, .execute, .format])
            else
              (.ok 200 ⟨"Login successful", userToJSON user,
                  generateToken secret now ⟨user.id, user.email, user.role⟩⟩,
                [.rateCheck, .parseValidate, .execute, .format])

/-- The profile GET handler: authenticate first (no rate check, no body
validation), then lookup, then the success envelope embedding
`user.toJSON()`. -/
def profileGET (now : Nat) (secret : String) (db : List UserRecord)
    (r : ProfileRequest) : ApiResponse × List Stage :=
  match authenticateRequest secret now r with
  | none =>
      (.fail (formatErrorResponse
          (AuthenticationError "Authentication token required")),
        [.authenticate, .format])
  | some payload =>
      match db.find? (fun u => u.id == payload.userId) with
      | none =>
          (.fail (formatErrorResponse (NotFoundError "User not found")),
            [.authenticate, .execute, .format])
      | some user =>
          (.okProfile 200 "Profile retrieved successfully" (userToJSON user),
            [.authenticate, .execute, .format])

/-- `findByIdAndUpdate`: apply the supplied fields of the patch. -/
def applyUpdate (u : UserRecord) (d : UpdateProfileData) : UserRecord :=
  { u with firstName := d.firstName.getD u.firstName,
           lastName := d.lastName.getD u.lastName }

/-- The profile PUT handler: authenticate first, then parse/validate the
body, then update — no rate check anywhere. -/
def profilePUT (now : Nat) (secret : String) (db : List UserRecord)
    (r : ProfileRequest) (body : RawUpdateProfileInput) :
    ApiResponse × List Stage :=
  match authenticateRequest secret now r with
  | none =>
      (.fail (formatErrorResponse
          (AuthenticationError "Authentication token required")),
        [.authenticate, .format])
  | some payload =>
      match validateUpdateProfile body with
      | (es, none) =>
          (.fail (formatErrorResponse (mkValidationError es)),
            [.authenticate, .parseValidate, .format])
      | (_, some data) =>
          match db.find? (fun u => u.id == payload.userId) with
          | none =>
              (.fail (formatErrorResponse (NotFoundError "User not found")),
                [.authenticate, .parseValidate, .execute, .format])
          | some user =>
              (.okProfile 200 "Profile updated successfully"
                  (userToJSON (applyUpdate user data)),
                [.authenticate, .parseValidate, .execute, .format])

/-- Counterexample to C5 as stated: a profile PUT carrying a valid bearer
token and an invalid body runs AUTHENTICATE strictly before
PARSE_VALIDATE and never enters RATE_CHECK; a profile GET likewise never
enters RATE_CHECK.  The claimed fixed order `RATE_CHECK → PARSE_VALIDATE
→ AUTHENTICATE → …` and "every inbound read or write passes through rate
limiting" both fail on the protected profile operations. -/
theorem pipeline_order_counterexample :
    (profilePUT 0 "s" []
        ⟨some (generateToken "s" 0 ⟨"u1", "a@b.co", "candidate"⟩), none⟩
        ⟨none, none, some "bad phone!", none, none, none⟩).2 =
      [Stage.authenticate, Stage.parseValidate, Stage.format] ∧
    Stage.rateCheck ∉
      (profilePUT 0 "s" []
        ⟨some (generateToken "s" 0 ⟨"u1", "a@b.co", "candidate"⟩), none⟩
        ⟨none, none, some "bad phone!", none, none, none⟩).2 ∧
    Stage.rateCheck ∉
      (profileGET 0 "s" []
        ⟨some (generateToken "s" 0 ⟨"u1", "a@b.co", "candidate"⟩), none⟩).2 := by
  exact ⟨by decide, by decide, by decide⟩

/-- C5 amended: the public operations (registration, login) run
`RATE_CHECK → PARSE_VALIDATE → EXECUTE → FORMAT` with failures jumping to
FORMAT; the protected profile operations skip rate limiting entirely and
run AUTHENTICATE first — before input parsing/validation on PUT — then
EXECUTE and FORMAT. -/
theorem pipeline_stage_order (now : Nat) (secret : String) (rl : RLState)
    (db : List UserRecord) (ip : Option String) (newId : String)
    (rbody : RawRegisterInput) (lbody : RawLoginInput)
    (preq : ProfileRequest) (pbody : RawUpdateProfileInput) :
    (registerPOST now secret rl db ip newId rbody).2 ∈
      [[Stage.rateCheck, Stage.format],
       [Stage.rateCheck, Stage.parseValidate, Stage.format],
       [Stage.rateCheck, Stage.parseValidate, Stage.execute, Stage.format]] ∧
    (loginPOST now secret rl db ip lbody).2 ∈
      [[Stage.rateCheck, Stage.format],
       [Stage.rateCheck, Stage.parseValidate, Stage.format],
       [Stage.rateCheck, Stage.parseValidate, Stage.execute, Stage.format]] ∧
    (profileGET now secret db preq).2 ∈
      [[Stage.authenticate, Stage.format],
       [Stage.authenticate, Stage.execute, Stage.format]] ∧
    (profilePUT now secret db preq pbody).2 ∈
      [[Stage.authenticate, Stage.format],
       [Stage.authenticate, Stage.parseValidate, Stage.format],
       [Stage.authenticate, Stage.parseValidate, Stage.execute, Stage.format]] := by
  refine ⟨?_, ?_, ?_, ?_⟩
  · unfold registerPOST
    dsimp only
    repeat' split
    all_goals simp
  · unfold loginPOST
    dsimp only
    repeat' split
    all_goals simp
  · unfold profileGET
    repeat' split
    all_goals simp
  · unfold profilePUT
    repeat' split
    all_goals simp

lemma userToJSON_lookup_password (u : UserRecord) :
    (userToJSON u).lookup "password" = none := rfl

/-- C10: the model's `toJSON` transform removes the password field, so the
user object embedded in the registration and login success envelopes never
contains the stored password hash — even though both routes load the
record with the password selected. -/
theorem success_envelope_hides_password (u : UserRecord) (now : Nat)
    (secret : String) (rl : RLState) (db : List UserRecord)
    (ip : Option String) (newId : String) (rbody : RawRegisterInput)
    (lbody : RawLoginInput) (st : Nat) (body : AuthSuccessBody) :
    (userToJSON u).lookup "password" = none ∧
    ((registerPOST now secret rl db ip newId rbody).1 = .ok st body →
      body.user.lookup "password" = none) ∧
    ((loginPOST now secret rl db ip lbody).1 = .ok st body →
      body.user.lookup "password" = none) := by
  refine ⟨userToJSON_lookup_password u, ?_, ?_⟩
  · intro h
    unfold registerPOST at h
    dsimp only at h
    repeat' split at h
    all_goals cases h
    all_goals exact userToJSON_lookup_password _
  · intro h
    unfold loginPOST at h
    dsimp only at h
    repeat' split at h
    all_goals cases h
    all_goals exact userToJSON_lookup_password _

/-- Witness for C10: a concrete successful registration (fresh store) and
a concrete successful login (matching stored credential); both envelopes'
user objects carry no password key. -/
theorem success_envelope_hides_password_witness :
    (userToJSON ⟨"id1", "a@b.co", bcryptHash "Passw0rd1", "Ann", "Lee",
        "candidate"⟩).lookup "password" = none ∧
    (⟨"Registration successful",
        userToJSON ⟨"id9", "user@example.com", bcryptHash "Passw0rd1",
          "Ann", "Lee", "candidate"⟩,
        generateToken "s" 0 ⟨"id9", "user@example.com", "candidate"⟩⟩
      : AuthSuccessBody).user.lookup "password" = none ∧
    (⟨"Login successful",
        userToJSON ⟨"id1", "a@b.co", bcryptHash "Passw0rd1", "Ann", "Lee",
          "candidate"⟩,
        generateToken "s" 0 ⟨"id1", "a@b.co", "candidate"⟩⟩
      : AuthSuccessBody).user.lookup "password" = none := by
  refine ⟨?_, ?_, ?_⟩
  · exact (success_envelope_hides_password
      ⟨"id1", "a@b.co", bcryptHash "Passw0rd1", "Ann", "Lee", "candidate"⟩
      0 "s" emptyRL [] (some "1.2.3.4") "id9"
      ⟨some "user@example.com", some "Passw0rd1", some "Ann", some "Lee", none⟩
      ⟨some "a@b.co", some "Passw0rd1"⟩ 201
      ⟨"x", [], generateToken "s" 0 ⟨"id9", "user@example.com", "candidate"⟩⟩).1
  · exact (success_envelope_hides_password
      ⟨"id1", "a@b.co", bcryptHash "Passw0rd1", "Ann", "Lee", "candidate"⟩
      0 "s" emptyRL [] (some "1.2.3.4") "id9"
      ⟨some "user@example.com", some "Passw0rd1", some "Ann", some "Lee", none⟩
      ⟨some "a@b.co", some "Passw0rd1"⟩ 201
      ⟨"Registration successful",
        userToJSON ⟨"id9", "user@example.com", bcryptHash "Passw0rd1",
          "Ann", "Lee", "candidate"⟩,
        generateToken "s" 0 ⟨"id9", "user@example.com", "candidate"⟩⟩).2.1
      (by decide)
  · exact (success_envelope_hides_password
      ⟨"id1", "a@b.co", bcryptHash "Passw0rd1", "Ann", "Lee", "candidate"⟩
      0 "s" emptyRL
      [⟨"id1", "a@b.co", bcryptHash "Passw0rd1", "Ann", "Lee", "candidate"⟩]
      (some "1.2.3.4") "id9"
      ⟨some "user@example.com", some "Passw0rd1", some "Ann", some "Lee", none⟩
      ⟨some "a@b.co", some "Passw0rd1"⟩ 200
      ⟨"Login successful",
        userToJSON ⟨"id1", "a@b.co", bcryptHash "Passw0rd1", "Ann", "Lee",
          "candidate"⟩,
        generateToken "s" 0 ⟨"id1", "a@b.co", "candidate"⟩⟩).2.2
      (by decide)

end RecruitPro
